import Mathlib

/-! Shallow embedding of the discord-audio-stream-bot sources, src/index.js and
src/stream.js, together with theorems about the voice session controller, the
stream pipeline and the shutdown path.  Remote registries (the voice-connection
map of the voice library, the channel cache, the member voice-state cache) are
modelled as association lists keyed by string ids; presentation-only effects
(console logging, embed formatting, the user status) are not part of the state.
Uncaught JavaScript exceptions are modelled by the thrown variant of the
handler result type; mutations performed before a throw persist in the
returned state, as they do in the source. -/

namespace Bot

/-- Channel type tag: the source compares against ChannelType.GuildVoice only,
so every non-voice type is collapsed into guildText. -/
inductive ChanType where
  | guildVoice
  | guildText
deriving DecidableEq, Repr

/-- One entry of the channel cache (client.channels.cache and, filtered by
guild, channel.guild.channels.cache). -/
structure Channel where
  id : String
  name : String
  type : ChanType
  guildId : String
deriving DecidableEq, Repr

/-- One voice connection as held by the @discordjs/voice registry: the channel
currently joined and whether connection.subscribe(player) has been called. -/
structure VoiceConn where
  channelId : String
  subscribed : Bool
deriving DecidableEq, Repr

/-- Status of the single shared audio player. -/
inductive PlayerStatus where
  | playing
  | idle
deriving DecidableEq, Repr

/-- Actions of the voiceController switch: play, stop, and the default branch. -/
inductive Action where
  | play
  | stop
  | other
deriving DecidableEq, Repr

/-- Outcome surface: one value per user-visible message the controller sends. -/
inductive Outcome where
  | connected (channelId : String)
  | connectionFailed (channelId : String)
  | disconnected (channelId : String)
  | notConnected
  | invalidTarget (channelId : Option String)
  | ignored
deriving DecidableEq, Repr

/-- JavaScript exception values that can escape the handlers. -/
inductive JsError where
  | typeError (msg : String)
deriving DecidableEq, Repr

/-- Result of running a handler: an outcome was reported, or an exception
escaped uncaught. -/
inductive HRes where
  | ok (o : Outcome)
  | thrown (e : JsError)
deriving DecidableEq, Repr

/-- Whole-process state touched by the handlers. -/
structure BotState where
  channels : List Channel
  conns : List (String × VoiceConn)
  memberVoice : List (String × String)
  playerStatus : PlayerStatus
  captureRunning : Bool
  guilds : List String
  clientAlive : Bool
deriving DecidableEq, Repr

/-- Insert or replace the binding of key k in an association list, as Map.set
does in the voice-connection registry. -/
def insertAssoc {α : Type} (k : String) (v : α) (l : List (String × α)) :
    List (String × α) :=
  (k, v) :: l.filter (fun p => p.1 != k)

/-- Remove the binding of key k from an association list, as Map.delete does
when a voice connection is destroyed. -/
def eraseAssoc {α : Type} (k : String) (l : List (String × α)) :
    List (String × α) :=
  l.filter (fun p => p.1 != k)

theorem lookup_insertAssoc {α : Type} (k : String) (v : α)
    (l : List (String × α)) : List.lookup k (insertAssoc k v l) = some v := by
  simp [insertAssoc, List.lookup]

theorem lookup_eraseAssoc {α : Type} (k : String) (l : List (String × α)) :
    List.lookup k (eraseAssoc k l) = none := by
  induction l with
  | nil => rfl
  | cons p t ih =>
    obtain ⟨a, b⟩ := p
    by_cases h : a = k
    · subst h
      simpa [eraseAssoc, List.filter_cons] using ih
    · have h1 : (a != k) = true := by simpa [bne_iff_ne] using h
      have h2 : (k == a) = false := by
        simpa [beq_eq_false_iff_ne] using Ne.symm h
      simpa [eraseAssoc, List.filter_cons, h1, List.lookup, h2] using ih

/-- Audio device descriptor as enumerated by naudiodon, extended with the
channel-count and bit-depth capability fields named by the required-format
invariant; createStream reads only name and defaultSampleRate. -/
structure AudioDevice where
  id : Nat
  name : String
  defaultSampleRate : Nat
  channels : Nat
  bitDepth : Nat
deriving DecidableEq, Repr

/-- The player plus capture stream produced by createStream: player.play is
called on the wrapped resource and audio.start begins the capture. -/
structure StreamHandle where
  playerStatus : PlayerStatus
  captureRunning : Bool
deriving DecidableEq, Repr

/-- createStream from src/stream.js: rejects a device whose defaultSampleRate
is not 48000 before constructing anything, otherwise builds the player,
starts playback of the device resource and starts the capture. -/
def createStream (device : AudioDevice) : Except String StreamHandle :=
  if device.defaultSampleRate ≠ 48000 then
    Except.error (device.name ++ " is not a supported audio device ...")
  else
    Except.ok { playerStatus := PlayerStatus.playing, captureRunning := true }

/-- Result of the ClientReady startup block of src/index.js. -/
inductive StartupResult where
  | exited (code : Nat)
  | ready (h : StreamHandle)
deriving DecidableEq, Repr

/-- The try/catch around createStream in the ClientReady handler: on any
createStream error the process exits via process.exit(0); otherwise the
stream handle is kept and command handling is installed. -/
def clientReadyStartup (device : AudioDevice) : StartupResult :=
  match createStream device with
  | Except.error _ => StartupResult.exited 0
  | Except.ok h => StartupResult.ready h

/-- The exception raised by reading property id of an undefined value. -/
def errUndefinedId : JsError :=
  JsError.typeError ("Cannot read properties of undefined (reading id)")

/-- client.channels.cache.get(channelId): the first cached channel with the
given id, none when channelId is null. -/
def findChannel (channels : List Channel) : Option String → Option Channel
  | none => none
  | some cid => channels.find? (fun c => c.id == cid)

/-- The test action !== stop of the invalid-channel guard. -/
def isStopAction : Action → Bool
  | Action.stop => true
  | _ => false

/-- The test voiceChannel.type !== ChannelType.GuildVoice, false when there is
no channel at all (the JavaScript guard short-circuits on voiceChannel). -/
def isNotVoice : Option Channel → Bool
  | some c =>
    match c.type with
    | ChanType.guildVoice => false
    | ChanType.guildText => true
  | none => false

/-- The invalid-channel guard of voiceController:
(!voiceChannel && action !== stop) || (voiceChannel && type !== GuildVoice). -/
def guardFails (voiceChannel : Option Channel) (action : Action) : Bool :=
  (voiceChannel.isNone && !(isStopAction action)) || isNotVoice voiceChannel

/-- The play case of voiceController: joinVoiceChannel on the resolved
channel, keyed by the guild of that channel in the connection registry (an
existing connection for the guild is moved rather than duplicated), then
connection.subscribe(player); the whole try block is summarised by the joinOk
flag: when it is false the catch branch reports the connection failure and
leaves every piece of state unchanged. -/
def playBranch (joinOk : Bool) (channelId : Option String)
    (voiceChannel : Option Channel) (st : BotState) : HRes × BotState :=
  match channelId, voiceChannel with
  | some cid, some vc =>
    if joinOk then
      (HRes.ok (Outcome.connected cid),
       { st with
           conns := insertAssoc vc.guildId { channelId := vc.id, subscribed := true } st.conns,
           memberVoice := insertAssoc vc.guildId vc.id st.memberVoice })
    else
      (HRes.ok (Outcome.connectionFailed cid), st)
  | _, _ => (HRes.ok Outcome.ignored, st)

/-- The stop case of voiceController: when getVoiceConnection(guild.id) is
non-null it runs player.stop() (the player goes idle), then destroys the
connection (the registry entry is removed and the member voice state clears),
and then logs and reports the channel read from connectedTo.id — a read that
throws a TypeError when the member voice-state cache has no channel, after
the mutations already happened.  When there is no connection it only reports
not connected. -/
def stopBranch (guildId : String) (st : BotState) : HRes × BotState :=
  match st.conns.lookup guildId with
  | some _ =>
    let st2 : BotState :=
      { st with
          playerStatus := PlayerStatus.idle,
          conns := eraseAssoc guildId st.conns,
          memberVoice := eraseAssoc guildId st.memberVoice }
    match st.memberVoice.lookup guildId with
    | some ch => (HRes.ok (Outcome.disconnected ch), st2)
    | none => (HRes.thrown errUndefinedId, st2)
  | none => (HRes.ok Outcome.notConnected, st)

/-- voiceController from src/index.js: resolves the channel id against the
channel cache, rejects an invalid or non-voice channel before any connection
work, and dispatches on the action; the default switch case does nothing. -/
def voiceController (joinOk : Bool) (action : Action) (guildId : String)
    (channelId : Option String) (st : BotState) : HRes × BotState :=
  if guardFails (findChannel st.channels channelId) action then
    (HRes.ok (Outcome.invalidTarget channelId), st)
  else
    match action with
    | Action.play => playBranch joinOk channelId (findChannel st.channels channelId) st
    | Action.stop => stopBranch guildId st
    | Action.other => (HRes.ok Outcome.ignored, st)

/-- Consume exactly n leading characters matching the regex class backslash-d
and return the rest of the input, none when a non-digit or the end of the
input is hit first. -/
def consumeDigits : Nat → List Char → Option (List Char)
  | 0, rest => some rest
  | _ + 1, [] => none
  | n + 1, c :: rest => if c.isDigit then consumeDigits n rest else none

/-- channelId.match on the anchored pattern of eighteen digit classes used by
the MessageCreate play handler: without the multiline flag the anchors pin
the whole string, so the match succeeds exactly on eighteen digits followed
by the end of the input. -/
def jsMatchExactly18Digits (s : String) : Bool :=
  match consumeDigits 18 s.data with
  | some [] => true
  | _ => false

/-- getVoiceChannelByName from src/index.js: the first channel of the guild
whose type is GuildVoice and whose name equals the requested name under the
strict (case-sensitive) equality of the source. -/
def getVoiceChannelByName (channels : List Channel) (guildId : String)
    (channelName : String) : Option Channel :=
  (channels.filter (fun c => c.guildId == guildId)).find?
    (fun c => !(isNotVoice (some c)) && c.name == channelName)

/-- Target resolution of the MessageCreate play handler: an eighteen-digit
target is passed through as a raw id; any other target is resolved by
getVoiceChannelByName, and the property read joinChannelId = found.id throws
a TypeError when nothing was found. -/
def resolveJoinChannelId (channels : List Channel) (guildId : String)
    (target : String) : Except JsError String :=
  if jsMatchExactly18Digits target then
    Except.ok target
  else
    match getVoiceChannelByName channels guildId target with
    | some c => Except.ok c.id
    | none => Except.error errUndefinedId

/-- The play command path of the MessageCreate handler: resolve the target,
then call voiceController with action play; a resolution exception escapes
the handler uncaught. -/
def handlePlay (joinOk : Bool) (guildId : String) (target : String)
    (st : BotState) : HRes × BotState :=
  match resolveJoinChannelId st.channels guildId target with
  | Except.ok cid => voiceController joinOk Action.play guildId (some cid) st
  | Except.error e => (HRes.thrown e, st)

/-- The stop command path of the MessageCreate handler: voiceController with
action stop and a null channel id. -/
def handleStop (guildId : String) (st : BotState) : HRes × BotState :=
  voiceController true Action.stop guildId none st

/-- The SIGINT handler of src/index.js: for every cached guild it destroys
the voice connection of that guild when one exists, then destroys the client,
then calls process.exit(130).  The player and the capture stream are not
touched. -/
def sigintHandler (st : BotState) : BotState × Nat :=
  ({ st with
       conns := st.guilds.foldl (fun cs g => eraseAssoc g cs) st.conns,
       clientAlive := false },
   130)

/-! Concrete fixtures used by witnesses and counterexamples: one guild with
two voice channels and a text channel that happens to carry the name general,
plus two audio devices. -/

def gOne : String := "g1"

def chanA : Channel :=
  { id := "100000000000000001", name := "Alpha",
    type := ChanType.guildVoice, guildId := "g1" }

def chanB : Channel :=
  { id := "100000000000000002", name := "Beta",
    type := ChanType.guildVoice, guildId := "g1" }

def chanGeneralText : Channel :=
  { id := "100000000000000003", name := "general",
    type := ChanType.guildText, guildId := "g1" }

def baseSt : BotState :=
  { channels := [chanA, chanB, chanGeneralText],
    conns := [],
    memberVoice := [],
    playerStatus := PlayerStatus.playing,
    captureRunning := true,
    guilds := ["g1"],
    clientAlive := true }

def deviceMono : AudioDevice :=
  { id := 1, name := "Mono Mix", defaultSampleRate := 48000,
    channels := 1, bitDepth := 8 }

def device44k : AudioDevice :=
  { id := 2, name := "CD Out", defaultSampleRate := 44100,
    channels := 2, bitDepth := 16 }

/-- Claim C5, counterexample: the claim says a device descriptor violating
any part of the required format (48000 Hz, 2 channels, 16-bit) makes the
process terminate at startup with a non-zero exit code; the device Mono Mix
violates the channel-count and bit-depth requirements yet startup succeeds,
and the device CD Out violates the sample-rate requirement yet the process
exits with code 0, not a non-zero code. -/
theorem c5_counterexample :
    deviceMono.channels ≠ 2 ∧ deviceMono.bitDepth ≠ 16
    ∧ clientReadyStartup deviceMono
        = StartupResult.ready
            { playerStatus := PlayerStatus.playing, captureRunning := true }
    ∧ device44k.defaultSampleRate ≠ 48000
    ∧ clientReadyStartup device44k = StartupResult.exited 0 := by
  refine ⟨by decide, by decide, ?_, by decide, ?_⟩ <;> rfl

/-- Claim C5, amended: startup validation checks only the sample rate of the
selected device: when defaultSampleRate differs from 48000 the ClientReady
handler exits the process with code 0 (not a non-zero code), and when it
equals 48000 startup succeeds whatever the channel count and bit depth of
the descriptor are. -/
theorem c5_startup_validation (d : AudioDevice) :
    (d.defaultSampleRate ≠ 48000 → clientReadyStartup d = StartupResult.exited 0)
    ∧ (d.defaultSampleRate = 48000 →
        clientReadyStartup d
          = StartupResult.ready
              { playerStatus := PlayerStatus.playing, captureRunning := true }) := by
  constructor
  · intro h
    simp [clientReadyStartup, createStream, h]
  · intro h
    simp [clientReadyStartup, createStream, h]

theorem c5_startup_validation_witness :
    device44k.defaultSampleRate ≠ 48000
    ∧ clientReadyStartup device44k = StartupResult.exited 0 :=
  ⟨by decide, (c5_startup_validation device44k).1 (by decide)⟩

/-- Claim C6: a device whose native sample rate is not 48000 Hz makes
createStream fail with the unsupported-device error, and the check fires
before any construction, so no player value is ever produced. -/
theorem c6_unsupported_sample_rate (d : AudioDevice)
    (h : d.defaultSampleRate ≠ 48000) :
    createStream d = Except.error (d.name ++ " is not a supported audio device ...")
    ∧ ∀ p : StreamHandle, createStream d ≠ Except.ok p := by
  constructor
  · simp [createStream, h]
  · intro p hp
    rw [createStream, if_pos h] at hp
    exact Except.noConfusion hp

theorem c6_unsupported_sample_rate_witness :
    createStream device44k
      = Except.error (device44k.name ++ " is not a supported audio device ...")
    ∧ ∀ p : StreamHandle, createStream device44k ≠ Except.ok p :=
  c6_unsupported_sample_rate device44k (by decide)

/-- Claim C7: a stop command for a guild with no live voice connection
reports the not-connected outcome and changes nothing, and in particular the
second of two consecutive stop commands always reports not connected and
leaves the state it received untouched. -/
theorem c7_stop_idempotent (g : String) (st : BotState) :
    (st.conns.lookup g = none →
        handleStop g st = (HRes.ok Outcome.notConnected, st))
    ∧ handleStop g (handleStop g st).2
        = (HRes.ok Outcome.notConnected, (handleStop g st).2) := by
  have hred : ∀ s : BotState, handleStop g s = stopBranch g s := by
    intro s
    simp [handleStop, voiceController, findChannel, guardFails, isStopAction,
      isNotVoice]
  constructor
  · intro h
    rw [hred]
    simp [stopBranch, h]
  · rw [hred, hred]
    cases hc : st.conns.lookup g with
    | none => simp [stopBranch, hc]
    | some c =>
      cases hm : st.memberVoice.lookup g with
      | none => simp [stopBranch, hc, hm, lookup_eraseAssoc]
      | some ch => simp [stopBranch, hc, hm, lookup_eraseAssoc]

theorem c7_stop_idempotent_witness :
    handleStop gOne baseSt = (HRes.ok Outcome.notConnected, baseSt) :=
  (c7_stop_idempotent gOne baseSt).1 rfl

/-- State with a live session: the guild g1 is connected to channel Alpha,
the player is subscribed and playing, and the member voice state shows the
connected channel. -/
def stLiveA : BotState :=
  { baseSt with
      conns := [("g1", { channelId := "100000000000000001", subscribed := true })],
      memberVoice := [("g1", "100000000000000001")] }

/-- Claim C1, counterexample: with a session already registered for guild g1
on channel Alpha, a play command for channel Beta does not fail with an
already-connected outcome; it reports the connected outcome for Beta and the
registered connection switches to Beta. -/
theorem c1_counterexample :
    stLiveA.conns.lookup gOne
      = some { channelId := chanA.id, subscribed := true }
    ∧ (handlePlay true gOne chanB.id stLiveA).1
        = HRes.ok (Outcome.connected chanB.id)
    ∧ ((handlePlay true gOne chanB.id stLiveA).2).conns.lookup gOne
        = some { channelId := chanB.id, subscribed := true } := by
  refine ⟨?_, ?_, ?_⟩ <;> rfl

/-- Claim C1, amended: the play case never consults the session registry, so
while a session exists a play command for a valid voice channel of the guild
does not fail: joinVoiceChannel moves the existing connection of the guild to
the target channel, the player is subscribed to it, and the connected outcome
for the target is reported. -/
theorem c1_play_while_connected_moves (g cid : String) (vc : Channel)
    (conn0 : VoiceConn) (st : BotState)
    (_hconn : st.conns.lookup g = some conn0)
    (hfind : st.channels.find? (fun c => c.id == cid) = some vc)
    (hv : vc.type = ChanType.guildVoice)
    (hg : vc.guildId = g) (hid : vc.id = cid) :
    voiceController true Action.play g (some cid) st
      = (HRes.ok (Outcome.connected cid),
         { st with
             conns := insertAssoc g { channelId := cid, subscribed := true } st.conns,
             memberVoice := insertAssoc g cid st.memberVoice })
    ∧ List.lookup g
        (insertAssoc g ({ channelId := cid, subscribed := true } : VoiceConn) st.conns)
      = some { channelId := cid, subscribed := true } := by
  constructor
  · simp [voiceController, findChannel, hfind, guardFails, isStopAction,
      isNotVoice, hv, playBranch, hg, hid]
  · exact lookup_insertAssoc g _ st.conns

theorem c1_play_while_connected_moves_witness :
    voiceController true Action.play gOne (some chanB.id) stLiveA
      = (HRes.ok (Outcome.connected chanB.id),
         { stLiveA with
             conns := insertAssoc gOne { channelId := chanB.id, subscribed := true }
               stLiveA.conns,
             memberVoice := insertAssoc gOne chanB.id stLiveA.memberVoice }) :=
  (c1_play_while_connected_moves gOne chanB.id chanB
      { channelId := chanA.id, subscribed := true } stLiveA rfl rfl rfl rfl rfl).1

/-- Claim C2: the spec promises that a play command whose target name matches
no voice channel of the guild yields the invalid-target outcome before any
connection attempt; in the code the name-resolution step reads the property
id of the undefined result of getVoiceChannelByName, so the handler instead
ends in an uncaught TypeError — the state is indeed untouched and no
connection is attempted, but no outcome is produced.  Evaluated here at the
target general, which only a text channel of the guild carries as name. -/
theorem c2_unmatched_name_throws :
    getVoiceChannelByName baseSt.channels gOne ("general") = none
    ∧ handlePlay true gOne ("general") baseSt
        = (HRes.thrown errUndefinedId, baseSt) := by
  constructor <;> rfl

/-- State with a live connection for guild g1 but no member voice-state
entry, as after a server-side disconnect that cleared the voice state while
the connection object is still registered. -/
def stC3 : BotState :=
  { baseSt with
      conns := [("g1", { channelId := "100000000000000001", subscribed := true })] }

/-- Claim C3, counterexample: handling a stop command is not exception-free:
with a registered connection but no member voice-state entry for the guild,
the stop branch reads connectedTo.id on an undefined value and the handler
ends in an uncaught TypeError instead of an outcome. -/
theorem c3_counterexample :
    (handleStop gOne stC3).1 = HRes.thrown errUndefinedId := by
  rfl

/-- Claim C3, amended: only the connection attempt of the play branch is
guarded by a try/catch: a failure while joining or subscribing is caught and
converted to the connection-failed outcome with the state unchanged.  The
stop branch and the name-resolution step of the play command are unguarded
and can end in an uncaught exception. -/
theorem c3_play_connect_failure_caught (g cid : String) (vc : Channel)
    (st : BotState)
    (hfind : st.channels.find? (fun c => c.id == cid) = some vc)
    (hv : vc.type = ChanType.guildVoice) :
    voiceController false Action.play g (some cid) st
      = (HRes.ok (Outcome.connectionFailed cid), st) := by
  simp [voiceController, findChannel, hfind, guardFails, isStopAction,
    isNotVoice, hv, playBranch]

theorem c3_play_connect_failure_caught_witness :
    voiceController false Action.play gOne (some chanA.id) baseSt
      = (HRes.ok (Outcome.connectionFailed chanA.id), baseSt) :=
  c3_play_connect_failure_caught gOne chanA.id chanA baseSt rfl rfl

/-- Claim C4, counterexample: the claim says stop ends only the attachment
between the shared player and the connection, leaving the player usable; in
the code the stop branch calls player.stop(), so after a stop from a playing
state the shared player itself is idle, not merely detached. -/
theorem c4_counterexample :
    stLiveA.playerStatus = PlayerStatus.playing
    ∧ (handleStop gOne stLiveA).1 = HRes.ok (Outcome.disconnected chanA.id)
    ∧ ((handleStop gOne stLiveA).2).playerStatus = PlayerStatus.idle := by
  refine ⟨?_, ?_, ?_⟩ <;> rfl

/-- Claim C4, amended: a stop with a live session stops the shared player
itself (the player transitions to idle and nothing ever restarts it), not
merely the attachment; the underlying capture stream does keep running, the
remote connection is destroyed, the session is removed from the registry,
and success is reported with the channel that was left. -/
theorem c4_stop_effects (g ch : String) (conn0 : VoiceConn) (st : BotState)
    (hconn : st.conns.lookup g = some conn0)
    (hvoice : st.memberVoice.lookup g = some ch) :
    handleStop g st
      = (HRes.ok (Outcome.disconnected ch),
         { st with
             playerStatus := PlayerStatus.idle,
             conns := eraseAssoc g st.conns,
             memberVoice := eraseAssoc g st.memberVoice })
    ∧ List.lookup g (eraseAssoc g st.conns) = none
    ∧ ({ st with
           playerStatus := PlayerStatus.idle,
           conns := eraseAssoc g st.conns,
           memberVoice := eraseAssoc g st.memberVoice } : BotState).captureRunning
        = st.captureRunning := by
  refine ⟨?_, lookup_eraseAssoc g st.conns, rfl⟩
  simp [handleStop, voiceController, findChannel, guardFails, isStopAction,
    isNotVoice, stopBranch, hconn, hvoice]

theorem c4_stop_effects_witness :
    handleStop gOne stLiveA
      = (HRes.ok (Outcome.disconnected chanA.id),
         { stLiveA with
             playerStatus := PlayerStatus.idle,
             conns := eraseAssoc gOne stLiveA.conns,
             memberVoice := eraseAssoc gOne stLiveA.memberVoice }) :=
  (c4_stop_effects gOne chanA.id { channelId := chanA.id, subscribed := true }
      stLiveA rfl rfl).1

theorem foldl_eraseAssoc_all (gs : List String) :
    ∀ cs : List (String × VoiceConn), (∀ p ∈ cs, p.1 ∈ gs) →
      gs.foldl (fun acc g => eraseAssoc g acc) cs = [] := by
  induction gs with
  | nil =>
    intro cs h
    cases cs with
    | nil => rfl
    | cons p t => exact absurd (h p (by simp)) (by simp)
  | cons g gs ih =>
    intro cs h
    simp only [List.foldl_cons]
    apply ih
    intro p hp
    have hmem : p ∈ cs ∧ (p.1 != g) = true := by
      simpa [eraseAssoc] using List.mem_filter.mp hp
    have hne : p.1 ≠ g := by simpa [bne_iff_ne] using hmem.2
    have := h p hmem.1
    simp only [List.mem_cons] at this
    exact this.resolve_left hne

/-- State with live sessions in two guilds, used for the shutdown scenario. -/
def stTwo : BotState :=
  { channels := [chanA, chanB, chanGeneralText],
    conns := [("g1", { channelId := "100000000000000001", subscribed := true }),
              ("g2", { channelId := "200000000000000001", subscribed := true })],
    memberVoice := [("g1", "100000000000000001"), ("g2", "200000000000000001")],
    playerStatus := PlayerStatus.playing,
    captureRunning := true,
    guilds := ["g1", "g2"],
    clientAlive := true }

/-- Claim C8, counterexample: on the termination signal with two live
sessions, the handler does destroy both connections, release the client and
exit with code 130, but it never stops the stream pipeline: the capture is
still running and the player still playing when the process exits, contrary
to the claimed destroy-then-stop-pipeline-then-release sequence. -/
theorem c8_counterexample :
    (sigintHandler stTwo).1.conns = []
    ∧ (sigintHandler stTwo).1.clientAlive = false
    ∧ (sigintHandler stTwo).2 = 130
    ∧ (sigintHandler stTwo).1.captureRunning = true
    ∧ (sigintHandler stTwo).1.playerStatus = PlayerStatus.playing := by
  refine ⟨?_, ?_, ?_, ?_, ?_⟩ <;> rfl

/-- Claim C8, amended: on the termination signal the handler destroys the
connection of every live session (for any number of guilds, in any order),
then releases the top-level client connection, and the process exits with
code 130, distinct from the normal exit code 0 and from the code 0 used by
the startup-validation failure; the stream pipeline is not stopped. -/
theorem c8_sigint_effects (st : BotState)
    (h : ∀ p ∈ st.conns, p.1 ∈ st.guilds) :
    (sigintHandler st).1.conns = []
    ∧ (sigintHandler st).1.clientAlive = false
    ∧ (sigintHandler st).2 = 130
    ∧ (sigintHandler st).2 ≠ 0
    ∧ (sigintHandler st).1.playerStatus = st.playerStatus
    ∧ (sigintHandler st).1.captureRunning = st.captureRunning := by
  refine ⟨?_, rfl, rfl, by simp [sigintHandler], rfl, rfl⟩
  simpa [sigintHandler] using foldl_eraseAssoc_all st.guilds st.conns h

theorem c8_sigint_effects_witness :
    (sigintHandler stTwo).1.conns = []
    ∧ (sigintHandler stTwo).1.clientAlive = false
    ∧ (sigintHandler stTwo).2 = 130
    ∧ (sigintHandler stTwo).2 ≠ 0
    ∧ (sigintHandler stTwo).1.playerStatus = stTwo.playerStatus
    ∧ (sigintHandler stTwo).1.captureRunning = stTwo.captureRunning :=
  c8_sigint_effects stTwo (by decide)

/-- Claim C9: on the sequential command model (each command, including its
connection I/O, is awaited to completion before the next is handled), the
sequence play to channel A, stop, play to channel B on the same guild
succeeds call by call, and afterwards the session registered for the guild
holds channel B with the shared player subscribed to it. -/
theorem c9_play_stop_play (st : BotState) (g aId bId : String)
    (chA0 chB0 : Channel)
    (hA : st.channels.find? (fun c => c.id == aId) = some chA0)
    (hAv : chA0.type = ChanType.guildVoice)
    (hAg : chA0.guildId = g) (hAid : chA0.id = aId)
    (hB : st.channels.find? (fun c => c.id == bId) = some chB0)
    (hBv : chB0.type = ChanType.guildVoice)
    (hBg : chB0.guildId = g) (hBid : chB0.id = bId) :
    (voiceController true Action.play g (some aId) st).1
        = HRes.ok (Outcome.connected aId)
    ∧ (voiceController true Action.stop g none
         (voiceController true Action.play g (some aId) st).2).1
        = HRes.ok (Outcome.disconnected aId)
    ∧ (voiceController true Action.play g (some bId)
         (voiceController true Action.stop g none
           (voiceController true Action.play g (some aId) st).2).2).1
        = HRes.ok (Outcome.connected bId)
    ∧ ((voiceController true Action.play g (some bId)
         (voiceController true Action.stop g none
           (voiceController true Action.play g (some aId) st).2).2).2).conns.lookup g
        = some { channelId := bId, subscribed := true } := by
  have h1 : voiceController true Action.play g (some aId) st
      = (HRes.ok (Outcome.connected aId),
         { st with
             conns := insertAssoc g { channelId := aId, subscribed := true } st.conns,
             memberVoice := insertAssoc g aId st.memberVoice }) := by
    simp [voiceController, findChannel, hA, guardFails, isStopAction,
      isNotVoice, hAv, playBranch, hAg, hAid]
  have h2 : voiceController true Action.stop g none
      ({ st with
           conns := insertAssoc g { channelId := aId, subscribed := true } st.conns,
           memberVoice := insertAssoc g aId st.memberVoice } : BotState)
      = (HRes.ok (Outcome.disconnected aId),
         { st with
             playerStatus := PlayerStatus.idle,
             conns := eraseAssoc g
               (insertAssoc g { channelId := aId, subscribed := true } st.conns),
             memberVoice := eraseAssoc g (insertAssoc g aId st.memberVoice) }) := by
    simp [voiceController, findChannel, guardFails, isStopAction, isNotVoice,
      stopBranch, lookup_insertAssoc]
  have h3 : voiceController true Action.play g (some bId)
      ({ st with
           playerStatus := PlayerStatus.idle,
           conns := eraseAssoc g
             (insertAssoc g { channelId := aId, subscribed := true } st.conns),
           memberVoice := eraseAssoc g (insertAssoc g aId st.memberVoice) } : BotState)
      = (HRes.ok (Outcome.connected bId),
         { st with
             playerStatus := PlayerStatus.idle,
             conns := insertAssoc g { channelId := bId, subscribed := true }
               (eraseAssoc g
                 (insertAssoc g { channelId := aId, subscribed := true } st.conns)),
             memberVoice := insertAssoc g bId
               (eraseAssoc g (insertAssoc g aId st.memberVoice)) }) := by
    simp [voiceController, findChannel, hB, guardFails, isStopAction,
      isNotVoice, hBv, playBranch, hBg, hBid]
  refine ⟨?_, ?_, ?_, ?_⟩ <;> simp [h1, h2, h3, lookup_insertAssoc]

theorem c9_play_stop_play_witness :
    ((voiceController true Action.play gOne (some chanB.id)
        (voiceController true Action.stop gOne none
          (voiceController true Action.play gOne (some chanA.id) baseSt).2).2).2).conns.lookup
      gOne = some { channelId := chanB.id, subscribed := true } :=
  (c9_play_stop_play baseSt gOne chanA.id chanB.id chanA chanB
      rfl rfl rfl rfl rfl rfl rfl rfl).2.2.2

theorem consumeDigits_spec (n : Nat) (l : List Char) :
    consumeDigits n l = some []
      ↔ (l.length = n ∧ ∀ c ∈ l, c.isDigit = true) := by
  induction n generalizing l with
  | zero =>
    cases l with
    | nil => simp [consumeDigits]
    | cons c t => simp [consumeDigits]
  | succ n ih =>
    cases l with
    | nil => simp [consumeDigits]
    | cons c t =>
      by_cases hc : c.isDigit = true
      · simp [consumeDigits, hc, ih]
      · simp only [consumeDigits, if_neg hc]
        constructor
        · intro h
          exact Option.noConfusion h
        · rintro ⟨h1, h2⟩
          exact absurd (h2 c (List.mem_cons_self c t)) hc

theorem jsMatch_iff (s : String) :
    jsMatchExactly18Digits s = true
      ↔ (s.length = 18 ∧ ∀ c ∈ s.data, c.isDigit = true) := by
  have hlen : s.length = s.data.length := rfl
  rw [hlen, ← consumeDigits_spec 18 s.data]
  cases h : consumeDigits 18 s.data with
  | none => simp [jsMatchExactly18Digits, h]
  | some rest =>
    cases rest with
    | nil => simp [jsMatchExactly18Digits, h]
    | cons a t => simp [jsMatchExactly18Digits, h]

theorem isNotVoice_false_iff (c : Channel) :
    isNotVoice (some c) = false ↔ c.type = ChanType.guildVoice := by
  cases h : c.type <;> simp [isNotVoice, h]

/-- Claim C10: a play target is passed through as a raw channel id exactly
when it consists of exactly eighteen decimal digits; every other target —
including purely numeric strings of a different length — is resolved as a
voice-channel name: any hit is a voice channel whose name equals the target
under case-sensitive comparison and its id is used, and a miss means the
resolution does not produce an id. -/
theorem c10_target_resolution (chans : List Channel) (g s : String) :
    ((s.length = 18 ∧ ∀ c ∈ s.data, c.isDigit = true) →
        resolveJoinChannelId chans g s = Except.ok s)
    ∧ (¬ (s.length = 18 ∧ ∀ c ∈ s.data, c.isDigit = true) →
        (∀ c0 : Channel, getVoiceChannelByName chans g s = some c0 →
            c0.type = ChanType.guildVoice ∧ c0.name = s
            ∧ resolveJoinChannelId chans g s = Except.ok c0.id)
        ∧ (getVoiceChannelByName chans g s = none →
            resolveJoinChannelId chans g s = Except.error errUndefinedId)) := by
  constructor
  · intro h
    have hm : jsMatchExactly18Digits s = true := (jsMatch_iff s).mpr h
    simp [resolveJoinChannelId, hm]
  · intro h
    have hm : jsMatchExactly18Digits s = false := by
      cases hb : jsMatchExactly18Digits s with
      | false => rfl
      | true => exact absurd ((jsMatch_iff s).mp hb) h
    constructor
    · intro c0 hc0
      have hc0u := hc0
      simp only [getVoiceChannelByName] at hc0u
      have hp := List.find?_some hc0u
      have hsplit : isNotVoice (some c0) = false ∧ c0.name = s := by
        simpa using hp
      have h1 := hsplit.1
      have h2 := hsplit.2
      exact ⟨(isNotVoice_false_iff c0).mp h1, h2,
        by simp [resolveJoinChannelId, hm, hc0]⟩
    · intro hnone
      simp [resolveJoinChannelId, hm, hnone]

/-- A voice channel whose name is a purely numeric string of seventeen
digits, to witness that such a target is treated as a name, not as an id. -/
def chan17 : Channel :=
  { id := "555", name := "12345678901234567",
    type := ChanType.guildVoice, guildId := "g1" }

def chans10 : List Channel := [chan17]

theorem c10_target_resolution_witness :
    resolveJoinChannelId chans10 gOne ("123456789012345678")
      = Except.ok ("123456789012345678")
    ∧ resolveJoinChannelId chans10 gOne ("12345678901234567")
      = Except.ok ("555") :=
  ⟨(c10_target_resolution chans10 gOne ("123456789012345678")).1 (by decide),
   (((c10_target_resolution chans10 gOne ("12345678901234567")).2 (by decide)).1
       chan17 rfl).2.2⟩

end Bot
